import Mathlib

/-!
Shallow embedding of the testgres backup subsystem (src/testgres/backup.py)
and of the poll-until primitive, together with theorems checking the
specification's claims about them.

Modelling conventions:
* Directories are identified by natural numbers.  `tempfile.mkdtemp` is a
  fresh-name generator: it returns the current counter value and bumps it.
* The filesystem is an association list `dirs : List (Nat × Nat)` mapping a
  base-directory id to the (abstract, `Nat`-valued) contents of the data
  subdirectory stored under it; `shutil.copytree` copies the contents of
  one base directory's data subdirectory to another, `shutil.rmtree`
  removes a base directory altogether.
* Exceptions are values of `TestgresError`; a raising operation returns the
  error together with the state at the moment of the raise (Python objects
  keep their state when an exception propagates).
-/

/-- Errors raised by the backup subsystem (src/testgres/exceptions.py is not
in src; only `BackupException` is needed by backup.py). -/
inductive TestgresError where
  | BackupException : String → TestgresError
deriving DecidableEq, Repr

/-- Modelled from the spec: constant `DATA_DIR` of consts.py (not in src),
the known data subdirectory name of an instance layout (§6). -/
def DATA_DIR : String := "data"

/-- Modelled from the spec: constant `BACKUP_LOG_FILE` of consts.py (not in
src), the backup log file name stored beside the snapshot (§6). -/
def BACKUP_LOG_FILE : String := "backup.log"

/-- Modelled from the spec: constant `DEFAULT_XLOG_METHOD` of consts.py
(not in src); the default snapshot method, one of none | fetch | stream. -/
def DEFAULT_XLOG_METHOD : String := "fetch"

/-- Modelled from the spec: `default_username` of utils.py (not in src),
the default database user name taken from external configuration (§6). -/
def default_username : String := "postgres"

/-- A path below a base directory: the base-directory id plus a relative
file name, as built by `os.path.join(self.base_dir, ...)`. -/
structure FsPath where
  base : Nat
  rel : String
deriving DecidableEq, Repr

/-- One recorded invocation of `_execute_utility` (utils.py, not in src):
the binary plus the arguments backup.py passes to `pg_basebackup`, and the
log file the output is captured into. -/
structure UtilityCall where
  bin : String
  arg_port : Nat
  arg_host : String
  arg_username : String
  arg_data_dir : FsPath
  arg_xlog_method : String
  log_file : FsPath
deriving DecidableEq, Repr

/-- The ambient mutable state: the mkdtemp fresh-name counter, the port
registry counter, whether filesystem copies currently fail (environment
fault, e.g. a full disk), the directory contents, and the trace of
external-utility invocations. -/
structure World where
  nextTemp : Nat
  nextPort : Nat
  copyFail : Bool
  dirs : List (Nat × Nat)
  utilities : List UtilityCall
deriving DecidableEq, Repr

/-- `tempfile.mkdtemp()`: returns a fresh private directory. -/
def mkdtemp (w : World) : Nat × World :=
  (w.nextTemp, { w with nextTemp := w.nextTemp + 1 })

/-- `shutil.rmtree(base, ignore_errors=True)`: removes a base directory
tree; a missing directory is tolerated (the filter simply finds nothing). -/
def rmtree (base : Nat) (w : World) : World :=
  { w with dirs := w.dirs.filter (fun p => p.1 != base) }

/-- `shutil.copytree(src/DATA_DIR, dest/DATA_DIR)`: deep-copies the data
subdirectory of base directory `src` to base directory `dest`.  Fails
(returns `none`) on an environment fault or when the source is missing. -/
def copytree (src dest : Nat) (w : World) : Option World :=
  if w.copyFail then none
  else
    match w.dirs.lookup src with
    | none => none
    | some d => some { w with dirs := (dest, d) :: w.dirs }

/-- Designation of an instance as seen by another instance (host, port). -/
structure NodeRef where
  host : String
  port : Nat
deriving DecidableEq, Repr

/-- An Instance (`PostgresNode` of node.py).  node.py is not in src; the
fields are the ones backup.py and the spec's data model (§3) use: name,
base directory, claimed port, host, running status, logging flag, the
directory-ownership flag `_should_rm_dirs`, appended configuration lines,
and the replica wiring (master designation and captured recovery user). -/
structure PostgresNode where
  name : Option String
  base_dir : Nat
  port : Nat
  host : String
  status : Bool
  use_logging : Bool
  _should_rm_dirs : Bool
  conf : List (String × String)
  master : Option NodeRef
  recovery_username : Option String
deriving DecidableEq, Repr

/-- The (host, port) designation of a node. -/
def PostgresNode.ref (n : PostgresNode) : NodeRef :=
  ⟨n.host, n.port⟩

/-- Modelled from the spec: the `PostgresNode` constructor lives in node.py
(not in src).  Per §3/§4.3 a new Instance takes the given name, base
directory and logging flag, claims a fresh port from the registry, and does
not yet own its directory nor run. -/
def PostgresNode.new (name : Option String) (base_dir : Nat)
    (use_logging : Bool) (w : World) : PostgresNode × World :=
  ({ name := name
     base_dir := base_dir
     port := w.nextPort
     host := "localhost"
     status := false
     use_logging := use_logging
     _should_rm_dirs := false
     conf := []
     master := none
     recovery_username := none },
   { w with nextPort := w.nextPort + 1 })

/-- Modelled from the spec: `append_conf` lives in node.py (not in src); as
used by backup.py it appends one line to a configuration file of the node. -/
def PostgresNode.append_conf (n : PostgresNode) (filename line : String) :
    PostgresNode :=
  { n with conf := n.conf ++ [(filename, line)] }

/-- Modelled from the spec: `_assign_master` lives in node.py (not in src);
per §4.4 it wires the node as a replica of the given master, designating the
master instance as the streaming/recovery target. -/
def PostgresNode._assign_master (n m : PostgresNode) : PostgresNode :=
  { n with master := some m.ref }

/-- Modelled from the spec: `_create_recovery_conf` lives in node.py (not in
src); per §4.4 it writes the replica recovery configuration using the given
user name. -/
def PostgresNode._create_recovery_conf (n : PostgresNode) (username : String) :
    PostgresNode :=
  { n with recovery_username := some username }

/-- A Backup (`NodeBackup` of backup.py): the originating node, the base
storage directory, the captured user name, and the private availability
flag `_available`. -/
structure NodeBackup where
  original_node : PostgresNode
  base_dir : Nat
  username : String
  _available : Bool
deriving DecidableEq, Repr

/-- `NodeBackup.log_file` property: `os.path.join(self.base_dir,
BACKUP_LOG_FILE)`. -/
def NodeBackup.log_file (b : NodeBackup) : FsPath :=
  ⟨b.base_dir, BACKUP_LOG_FILE⟩

/-- `NodeBackup.__init__`: requires the node to be running, defaults the
username and the base directory (`tempfile.mkdtemp()` when none is given),
marks the backup available and invokes `pg_basebackup` writing the node's
data into `base_dir/DATA_DIR`, logging to `log_file`.  The utility call is
recorded in the trace and its effect is the snapshot of the node's data
contents under the backup's base directory. -/
def NodeBackup.init (node : PostgresNode) (base_dir : Option Nat)
    (username : Option String) (xlog_method : String) (w : World) :
    Except TestgresError NodeBackup × World :=
  if node.status = false then
    (.error (.BackupException "Node must be running"), w)
  else
    let username := username.getD default_username
    let (base_dir, w) :=
      match base_dir with
      | some bd => (bd, w)
      | none => mkdtemp w
    let b : NodeBackup :=
      { original_node := node
        base_dir := base_dir
        username := username
        _available := true }
    let data_dir : FsPath := ⟨base_dir, DATA_DIR⟩
    let call : UtilityCall :=
      { bin := "pg_basebackup"
        arg_port := node.port
        arg_host := node.host
        arg_username := username
        arg_data_dir := data_dir
        arg_xlog_method := xlog_method
        log_file := b.log_file }
    let w :=
      { w with
        utilities := w.utilities ++ [call]
        dirs := (base_dir, (w.dirs.lookup node.base_dir).getD 0) :: w.dirs }
    (.ok b, w)

/-- `NodeBackup._prepare_dir(destroy)`: raises when the backup is exhausted;
otherwise either deep-copies the data directory into a fresh private base
directory (destroy = false) or hands over the backup's own base directory
(destroy = true), then stores the new availability flag.  On a copy failure
the flag assignment is never reached, so the backup object is unchanged. -/
def NodeBackup._prepare_dir (b : NodeBackup) (destroy : Bool) (w : World) :
    Except TestgresError Nat × NodeBackup × World :=
  if b._available = false then
    (.error (.BackupException "Backup is exhausted"), b, w)
  else
    let available := !destroy
    if available then
      let (dest_base_dir, w1) := mkdtemp w
      match copytree b.base_dir dest_base_dir w1 with
      | none => (.error (.BackupException "Failed to copy files"), b, w1)
      | some w2 => (.ok dest_base_dir, { b with _available := available }, w2)
    else
      (.ok b.base_dir, { b with _available := available }, w)

/-- `NodeBackup.spawn_primary(name, destroy, use_logging)`: prepares a data
directory, builds a new `PostgresNode` on it, marks it as owning its
directory tree, and appends the port line to postgresql.conf. -/
def NodeBackup.spawn_primary (b : NodeBackup) (name : Option String)
    (destroy : Bool) (use_logging : Bool) (w : World) :
    Except TestgresError PostgresNode × NodeBackup × World :=
  match b._prepare_dir destroy w with
  | (.error e, b1, w1) => (.error e, b1, w1)
  | (.ok base_dir, b1, w1) =>
    let (node, w2) := PostgresNode.new name base_dir use_logging w1
    let node := { node with _should_rm_dirs := true }
    let node := node.append_conf "postgresql.conf" "\n"
    let node := node.append_conf "postgresql.conf"
      ("port = " ++ toString node.port)
    (.ok node, b1, w2)

/-- `NodeBackup.spawn_replica(name, destroy, use_logging)`: spawns a primary
from the backup, then assigns the original node as its master and creates
the recovery configuration with the backup's captured username. -/
def NodeBackup.spawn_replica (b : NodeBackup) (name : Option String)
    (destroy : Bool) (use_logging : Bool) (w : World) :
    Except TestgresError PostgresNode × NodeBackup × World :=
  match b.spawn_primary name destroy use_logging w with
  | (.error e, b1, w1) => (.error e, b1, w1)
  | (.ok node, b1, w1) =>
    let node := node._assign_master b.original_node
    let node := node._create_recovery_conf b.username
    (.ok node, b1, w1)

/-- Default of the `destroy` argument of both `spawn_primary` (line 117)
and `spawn_replica` (line 147): `destroy=True`. -/
def spawn_default_destroy : Bool := true

/-- `spawn_primary` with the `destroy` argument omitted. -/
def NodeBackup.spawn_primary_defaults (b : NodeBackup) (w : World) :
    Except TestgresError PostgresNode × NodeBackup × World :=
  b.spawn_primary none spawn_default_destroy false w

/-- `spawn_replica` with the `destroy` argument omitted. -/
def NodeBackup.spawn_replica_defaults (b : NodeBackup) (w : World) :
    Except TestgresError PostgresNode × NodeBackup × World :=
  b.spawn_replica none spawn_default_destroy false w

/-- `NodeBackup.cleanup`: when still available, removes the storage
directory (tolerating a missing one) and clears the availability flag;
otherwise does nothing. -/
def NodeBackup.cleanup (b : NodeBackup) (w : World) : NodeBackup × World :=
  if b._available then ({ b with _available := false }, rmtree b.base_dir w)
  else (b, w)

/-- `NodeBackup.__exit__`: scope exit runs `cleanup`. -/
def NodeBackup.exit_scope (b : NodeBackup) (w : World) : NodeBackup × World :=
  b.cleanup w

/-!
The poll-until primitive.  `poll_query_until` lives in node.py, which is not
part of src; the definitions below are modelled from the spec (§4.3).
-/

/-- Modelled from the spec: the outcome of executing one query against the
database connection interface (§6): either a structured execution error or
an ordered sequence of rows of scalar columns. -/
inductive QueryResult (α : Type) where
  | failure : QueryResult α
  | rows : List (List α) → QueryResult α
deriving DecidableEq, Repr

/-- Modelled from the spec: the outcome of `poll_query_until`, carrying the
number of query attempts that were executed before the loop ended. -/
inductive PollResult where
  | success : Nat → PollResult
  | shape_error : Nat → PollResult
  | exec_error : Nat → PollResult
  | poll_timeout : Nat → PollResult
deriving DecidableEq, Repr

/-- Modelled from the spec: the retry loop of `poll_query_until` (node.py is
not in src).  `q i` is the result of the query at attempt number `i`; `used`
counts attempts already executed; the fuel is the remaining attempt budget.
Per §4.3: a match on `expected = none` succeeds as soon as the query executes
without error; an empty result set or a row with other than exactly one
column is a shape error, not retried; an execution error is immediately
fatal; a mismatching scalar is retried until the attempts are exhausted,
which is a timeout. -/
def pollLoop {α : Type} [DecidableEq α] (q : Nat → QueryResult α)
    (expected : Option α) (used : Nat) : Nat → PollResult
  | 0 => .poll_timeout used
  | fuel + 1 =>
    match q used with
    | .failure => .exec_error (used + 1)
    | .rows res =>
      match expected with
      | none => .success (used + 1)
      | some e =>
        match res with
        | [] => .shape_error (used + 1)
        | [] :: _ => .shape_error (used + 1)
        | (v :: []) :: _ =>
          if v = e then .success (used + 1)
          else pollLoop q expected (used + 1) fuel
        | (_ :: _ :: _) :: _ => .shape_error (used + 1)

/-- Modelled from the spec: `poll_query_until` with an expected scalar and a
maximum attempt count (§4.3). -/
def poll_query_until {α : Type} [DecidableEq α] (q : Nat → QueryResult α)
    (expected : Option α) (max_attempts : Nat) : PollResult :=
  pollLoop q expected 0 max_attempts

/-!  Repeated non-destructive spawning, and concrete sample values used by
the witnesses. -/

/-- `n` successive `spawn_primary(destroy := false)` calls on a backup,
collecting the spawned nodes; `none` when any of them raises. -/
def spawnManyNonDestroy : Nat → NodeBackup → World →
    Option (List PostgresNode × NodeBackup × World)
  | 0, b, w => some ([], b, w)
  | n + 1, b, w =>
    match b.spawn_primary none false false w with
    | (.error _, _, _) => none
    | (.ok node, b1, w1) =>
      match spawnManyNonDestroy n b1 w1 with
      | none => none
      | some (nodes, b2, w2) => some (node :: nodes, b2, w2)

/-- The node produced by a successful `spawn_primary none false false` from
world `w`: it lives in the freshly generated directory `w.nextTemp`, claims
port `w.nextPort`, owns its directory tree and has the port line appended. -/
def spawnedNode (w : World) : PostgresNode :=
  { name := none
    base_dir := w.nextTemp
    port := w.nextPort
    host := "localhost"
    status := false
    use_logging := false
    _should_rm_dirs := true
    conf := [("postgresql.conf", "\n"),
             ("postgresql.conf", "port = " ++ toString w.nextPort)]
    master := none
    recovery_username := none }

/-- The world after one successful non-destructive spawn that copied data
contents `d`: bumped mkdtemp and port counters, and the fresh directory
holding the copy. -/
def stepWorld (w : World) (d : Nat) : World :=
  { w with nextTemp := w.nextTemp + 1
           nextPort := w.nextPort + 1
           dirs := (w.nextTemp, d) :: w.dirs }

/-- A concrete running node used in witnesses. -/
def sampleNode : PostgresNode :=
  { name := some "master"
    base_dir := 0
    port := 5432
    host := "localhost"
    status := true
    use_logging := false
    _should_rm_dirs := false
    conf := []
    master := none
    recovery_username := none }

/-- The same node, stopped. -/
def sampleStopped : PostgresNode := { sampleNode with status := false }

/-- A concrete world: the node's data directory (base 0) holds contents 7
and the backup base directory 1 holds a snapshot of them. -/
def sampleWorld : World :=
  { nextTemp := 10
    nextPort := 5433
    copyFail := false
    dirs := [(0, 7), (1, 7)]
    utilities := [] }

/-- The same world while filesystem copies fail. -/
def sampleWorldFail : World := { sampleWorld with copyFail := true }

/-- A concrete available backup of `sampleNode` stored at base directory 1. -/
def sampleBackup : NodeBackup :=
  { original_node := sampleNode
    base_dir := 1
    username := "postgres"
    _available := true }

/-- The exhausted variant of `sampleBackup`. -/
def sampleBackupUsed : NodeBackup := { sampleBackup with _available := false }

/-- The node a `spawn_replica (some "replica") false false` call on
`sampleBackup` in `sampleWorld` produces. -/
def sampleReplica : PostgresNode :=
  { name := some "replica"
    base_dir := 10
    port := 5433
    host := "localhost"
    status := false
    use_logging := false
    _should_rm_dirs := true
    conf := [("postgresql.conf", "\n"), ("postgresql.conf", "port = 5433")]
    master := some ⟨"localhost", 5432⟩
    recovery_username := some "postgres" }

/-!  Helper lemmas. -/

/-- Writing `available := true` into an already-available backup is the
identity. -/
theorem NodeBackup.set_available_true (b : NodeBackup)
    (h : b._available = true) : { b with _available := true } = b := by
  cases b
  simp_all

/-- A key filtered out of an association list is no longer found. -/
theorem lookup_filter_ne (base : Nat) (l : List (Nat × Nat)) :
    (l.filter (fun p => p.1 != base)).lookup base = none := by
  induction l with
  | nil => rfl
  | cons p rest ih =>
    rcases p with ⟨a, v⟩
    by_cases hp : a = base
    · have hdrop : ((a, v) :: rest).filter (fun p => p.1 != base)
          = rest.filter (fun p => p.1 != base) := by
        simp [List.filter_cons, hp]
      rw [hdrop]
      exact ih
    · have hkeep : ((a, v) :: rest).filter (fun p => p.1 != base)
          = (a, v) :: rest.filter (fun p => p.1 != base) := by
        simp [List.filter_cons, hp]
      rw [hkeep]
      have hba : (base == a) = false := by
        simp [Ne.symm hp]
      simp [List.lookup, hba, ih]

/-- C1 (claim): once the availability flag of a backup is cleared, every
`spawn_primary` or `spawn_replica` call on it raises
`BackupException "Backup is exhausted"` and leaves the backup and the
filesystem untouched, producing no new node and no new directory. -/
theorem C1_exhausted_spawn_fails (b : NodeBackup) (w : World)
    (name : Option String) (destroy use_logging : Bool)
    (h : b._available = false) :
    b.spawn_primary name destroy use_logging w
      = (.error (.BackupException "Backup is exhausted"), b, w) ∧
    b.spawn_replica name destroy use_logging w
      = (.error (.BackupException "Backup is exhausted"), b, w) := by
  unfold NodeBackup.spawn_replica NodeBackup.spawn_primary
    NodeBackup._prepare_dir
  simp [h]

theorem C1_exhausted_spawn_fails_witness :
    sampleBackupUsed._available = false ∧
    (sampleBackupUsed.spawn_primary (some "node2") true false sampleWorld
        = (.error (.BackupException "Backup is exhausted"),
           sampleBackupUsed, sampleWorld) ∧
     sampleBackupUsed.spawn_replica (some "node2") true false sampleWorld
        = (.error (.BackupException "Backup is exhausted"),
           sampleBackupUsed, sampleWorld)) :=
  ⟨by decide,
   C1_exhausted_spawn_fails sampleBackupUsed sampleWorld (some "node2")
     true false (by decide)⟩

/-- C3 (claim): on an available backup, `spawn_primary(destroy := true)`
performs no copy — neither the directory map nor the mkdtemp counter nor
the utility trace changes — the returned node's base directory is the
backup's own base directory, and the call clears the availability flag. -/
theorem C3_destroy_spawn_hands_over (b : NodeBackup) (w : World)
    (name : Option String) (use_logging : Bool)
    (h : b._available = true) :
    (b.spawn_primary name true use_logging w).1.map (fun n => n.base_dir)
        = .ok b.base_dir ∧
    (b.spawn_primary name true use_logging w).2.1
        = { b with _available := false } ∧
    (b.spawn_primary name true use_logging w).2.2.dirs = w.dirs ∧
    (b.spawn_primary name true use_logging w).2.2.nextTemp = w.nextTemp ∧
    (b.spawn_primary name true use_logging w).2.2.utilities = w.utilities := by
  unfold NodeBackup.spawn_primary NodeBackup._prepare_dir
  simp [h, PostgresNode.new, PostgresNode.append_conf, Except.map]

theorem C3_destroy_spawn_hands_over_witness :
    sampleBackup._available = true ∧
    ((sampleBackup.spawn_primary (some "node1") true false
        sampleWorld).1.map (fun n => n.base_dir) = .ok sampleBackup.base_dir ∧
     (sampleBackup.spawn_primary (some "node1") true false sampleWorld).2.1
        = { sampleBackup with _available := false } ∧
     (sampleBackup.spawn_primary (some "node1") true false sampleWorld).2.2.dirs
        = sampleWorld.dirs ∧
     (sampleBackup.spawn_primary (some "node1") true false
        sampleWorld).2.2.nextTemp = sampleWorld.nextTemp ∧
     (sampleBackup.spawn_primary (some "node1") true false
        sampleWorld).2.2.utilities = sampleWorld.utilities) :=
  ⟨by decide,
   C3_destroy_spawn_hands_over sampleBackup sampleWorld (some "node1") false
     (by decide)⟩

/-- C4 (claim): when the deep copy of a `spawn_primary(destroy := false)`
fails — an environment fault, or the source data directory is missing —
the call raises `BackupException "Failed to copy files"` and the backup
object is unchanged, its availability flag still true. -/
theorem C4_copy_failure_keeps_backup (b : NodeBackup) (w : World)
    (name : Option String) (use_logging : Bool)
    (h : b._available = true)
    (hf : w.copyFail = true ∨ w.dirs.lookup b.base_dir = none) :
    (b.spawn_primary name false use_logging w).1
        = .error (.BackupException "Failed to copy files") ∧
    (b.spawn_primary name false use_logging w).2.1 = b ∧
    (b.spawn_primary name false use_logging w).2.1._available = true := by
  unfold NodeBackup.spawn_primary NodeBackup._prepare_dir mkdtemp copytree
  rcases hf with hf | hf
  · simp [h, hf]
  · rcases hcf : w.copyFail with _ | _ <;> simp [h, hf, hcf]

theorem C4_copy_failure_keeps_backup_witness :
    (sampleBackup._available = true ∧
     (sampleWorldFail.copyFail = true ∨
      sampleWorldFail.dirs.lookup sampleBackup.base_dir = none)) ∧
    ((sampleBackup.spawn_primary none false false sampleWorldFail).1
        = .error (.BackupException "Failed to copy files") ∧
     (sampleBackup.spawn_primary none false false sampleWorldFail).2.1
        = sampleBackup ∧
     (sampleBackup.spawn_primary none false false
        sampleWorldFail).2.1._available = true) :=
  ⟨⟨by decide, Or.inl (by decide)⟩,
   C4_copy_failure_keeps_backup sampleBackup sampleWorldFail none false
     (by decide) (Or.inl (by decide))⟩

/-- C5 (counterexample): the claim says the omitted `destroy` argument
defaults to false and the backup stays reusable; in the source the default
is `destroy=True`, and a default spawn on an available backup clears the
availability flag. -/
theorem C5_counterexample :
    spawn_default_destroy ≠ false ∧
    sampleBackup._available = true ∧
    (sampleBackup.spawn_primary_defaults sampleWorld).2.1._available
        = false := by
  refine ⟨by decide, by decide, ?_⟩
  decide

/-- C5 (amended): when the `destroy` argument is omitted, `spawn_primary`
and `spawn_replica` default to `destroy=true`: by default a spawn exhausts
the backup, clearing its availability flag. -/
theorem C5_default_destroy_exhausts (b : NodeBackup) (w : World)
    (h : b._available = true) :
    spawn_default_destroy = true ∧
    (b.spawn_primary_defaults w).2.1._available = false ∧
    (b.spawn_replica_defaults w).2.1._available = false := by
  unfold NodeBackup.spawn_primary_defaults NodeBackup.spawn_replica_defaults
    spawn_default_destroy NodeBackup.spawn_replica NodeBackup.spawn_primary
    NodeBackup._prepare_dir
  simp [h, PostgresNode.new, PostgresNode.append_conf]

theorem C5_default_destroy_exhausts_witness :
    sampleBackup._available = true ∧
    (spawn_default_destroy = true ∧
     (sampleBackup.spawn_primary_defaults sampleWorld).2.1._available
        = false ∧
     (sampleBackup.spawn_replica_defaults sampleWorld).2.1._available
        = false) :=
  ⟨by decide,
   C5_default_destroy_exhausts sampleBackup sampleWorld (by decide)⟩

/-- C6 (claim): creating a backup of a node that is not running raises
`BackupException "Node must be running"` and changes nothing; on a running
node it invokes `pg_basebackup` writing into the data subdirectory of the
base directory, which is freshly auto-generated when none is supplied. -/
theorem C6_backup_requires_running (stopped running : PostgresNode)
    (bd : Option Nat) (un : Option String) (xm : String) (w1 w2 : World)
    (h1 : stopped.status = false) (h2 : running.status = true) :
    NodeBackup.init stopped bd un xm w1
        = (.error (.BackupException "Node must be running"), w1) ∧
    (∃ b : NodeBackup, (NodeBackup.init running none un xm w2).1 = .ok b ∧
      b.base_dir = w2.nextTemp ∧
      b._available = true ∧
      b.username = un.getD default_username ∧
      (NodeBackup.init running none un xm w2).2.utilities
        = w2.utilities
          ++ [{ bin := "pg_basebackup"
                arg_port := running.port
                arg_host := running.host
                arg_username := un.getD default_username
                arg_data_dir := ⟨w2.nextTemp, DATA_DIR⟩
                arg_xlog_method := xm
                log_file := ⟨w2.nextTemp, BACKUP_LOG_FILE⟩ }]) := by
  constructor
  · unfold NodeBackup.init
    simp [h1]
  · unfold NodeBackup.init mkdtemp NodeBackup.log_file
    simp [h2]

theorem C6_backup_requires_running_witness :
    (sampleStopped.status = false ∧ sampleNode.status = true) ∧
    (NodeBackup.init sampleStopped none none DEFAULT_XLOG_METHOD sampleWorld
        = (.error (.BackupException "Node must be running"), sampleWorld) ∧
     (∃ b : NodeBackup,
       (NodeBackup.init sampleNode none none DEFAULT_XLOG_METHOD
          sampleWorld).1 = .ok b ∧
       b.base_dir = sampleWorld.nextTemp ∧
       b._available = true ∧
       b.username = Option.getD none default_username ∧
       (NodeBackup.init sampleNode none none DEFAULT_XLOG_METHOD
          sampleWorld).2.utilities
         = sampleWorld.utilities
           ++ [{ bin := "pg_basebackup"
                 arg_port := sampleNode.port
                 arg_host := sampleNode.host
                 arg_username := Option.getD none default_username
                 arg_data_dir := ⟨sampleWorld.nextTemp, DATA_DIR⟩
                 arg_xlog_method := DEFAULT_XLOG_METHOD
                 log_file := ⟨sampleWorld.nextTemp, BACKUP_LOG_FILE⟩ }])) :=
  ⟨⟨by decide, by decide⟩,
   C6_backup_requires_running sampleStopped sampleNode none none
     DEFAULT_XLOG_METHOD sampleWorld sampleWorld (by decide) (by decide)⟩

/-- C7 (claim): cleanup of an available backup removes its storage
directory from the filesystem (a missing directory is tolerated) and clears
the availability flag; a second cleanup, or the cleanup run at scope exit,
leaves the backup and the filesystem exactly unchanged. -/
theorem C7_cleanup_idempotent (b : NodeBackup) (w : World)
    (h : b._available = true) :
    ((b.cleanup w).1._available = false ∧
     (b.cleanup w).2.dirs.lookup b.base_dir = none) ∧
    (b.cleanup w).1.cleanup (b.cleanup w).2 = b.cleanup w ∧
    (b.cleanup w).1.exit_scope (b.cleanup w).2 = b.cleanup w := by
  unfold NodeBackup.exit_scope NodeBackup.cleanup rmtree
  simp [h, lookup_filter_ne]

theorem C7_cleanup_idempotent_witness :
    sampleBackup._available = true ∧
    (((sampleBackup.cleanup sampleWorld).1._available = false ∧
      (sampleBackup.cleanup sampleWorld).2.dirs.lookup sampleBackup.base_dir
        = none) ∧
     (sampleBackup.cleanup sampleWorld).1.cleanup
        (sampleBackup.cleanup sampleWorld).2
       = sampleBackup.cleanup sampleWorld ∧
     (sampleBackup.cleanup sampleWorld).1.exit_scope
        (sampleBackup.cleanup sampleWorld).2
       = sampleBackup.cleanup sampleWorld) :=
  ⟨by decide, C7_cleanup_idempotent sampleBackup sampleWorld (by decide)⟩

/-- C8 (claim): `spawn_replica` is exactly `spawn_primary` with the same
arguments, followed by assigning the backup's originating node as the new
node's master and writing the recovery configuration with the username
captured at backup creation; it returns that wired node and has the same
effect on the backup and the world. -/
theorem C8_spawn_replica_wiring (b : NodeBackup) (w : World)
    (name : Option String) (destroy use_logging : Bool) :
    (b.spawn_replica name destroy use_logging w).2
        = (b.spawn_primary name destroy use_logging w).2 ∧
    (b.spawn_replica name destroy use_logging w).1
        = (b.spawn_primary name destroy use_logging w).1.map
            (fun node =>
              (node._assign_master b.original_node)._create_recovery_conf
                b.username) ∧
    (∀ node, (b.spawn_replica name destroy use_logging w).1 = .ok node →
        node.master = some b.original_node.ref ∧
        node.recovery_username = some b.username) := by
  unfold NodeBackup.spawn_replica
  rcases hsp : b.spawn_primary name destroy use_logging w with ⟨r, b1, w1⟩
  rcases r with e | node
  · simp [Except.map]
  · refine ⟨rfl, by simp [Except.map], ?_⟩
    intro node2 hnode
    simp at hnode
    rw [← hnode]
    simp [PostgresNode._assign_master, PostgresNode._create_recovery_conf]

theorem C8_spawn_replica_wiring_witness :
    ((sampleBackup.spawn_replica (some "replica") false false sampleWorld).2
        = (sampleBackup.spawn_primary (some "replica") false false
            sampleWorld).2) ∧
    ((sampleBackup.spawn_replica (some "replica") false false sampleWorld).1
        = .ok sampleReplica) ∧
    (sampleReplica.master = some sampleBackup.original_node.ref ∧
     sampleReplica.recovery_username = some sampleBackup.username) :=
  ⟨(C8_spawn_replica_wiring sampleBackup sampleWorld (some "replica") false
      false).1,
   by rfl,
   (C8_spawn_replica_wiring sampleBackup sampleWorld (some "replica") false
      false).2.2 sampleReplica (by rfl)⟩

/-- C10 (claim): after `spawn_primary(destroy := true)` hands the backup's
base directory to a new node, a later cleanup or scope exit of that backup
leaves the backup and the whole filesystem state untouched — the handed-off
directory is never deleted by the backup. -/
theorem C10_cleanup_after_handover (b : NodeBackup) (w : World)
    (name : Option String) (use_logging : Bool) (h : b._available = true) :
    (b.spawn_primary name true use_logging w).2.1.cleanup
        (b.spawn_primary name true use_logging w).2.2
      = (b.spawn_primary name true use_logging w).2 ∧
    (b.spawn_primary name true use_logging w).2.1.exit_scope
        (b.spawn_primary name true use_logging w).2.2
      = (b.spawn_primary name true use_logging w).2 := by
  unfold NodeBackup.exit_scope NodeBackup.cleanup NodeBackup.spawn_primary
    NodeBackup._prepare_dir
  simp [h, PostgresNode.new, PostgresNode.append_conf]

theorem C10_cleanup_after_handover_witness :
    sampleBackup._available = true ∧
    ((sampleBackup.spawn_primary (some "node1") true false
        sampleWorld).2.1.cleanup
        (sampleBackup.spawn_primary (some "node1") true false sampleWorld).2.2
      = (sampleBackup.spawn_primary (some "node1") true false
          sampleWorld).2 ∧
     (sampleBackup.spawn_primary (some "node1") true false
        sampleWorld).2.1.exit_scope
        (sampleBackup.spawn_primary (some "node1") true false sampleWorld).2.2
      = (sampleBackup.spawn_primary (some "node1") true false
          sampleWorld).2) :=
  ⟨by decide,
   C10_cleanup_after_handover sampleBackup sampleWorld (some "node1") false
     (by decide)⟩

/-- One successful non-destructive spawn, characterised explicitly: the
spawned node is `spawnedNode w`, the backup is unchanged, and the world
gets a bumped mkdtemp counter, a bumped port counter and a copy of the
backup's data contents at the fresh directory. -/
theorem spawn_primary_nondestroy_step (b : NodeBackup) (w : World) (d : Nat)
    (h1 : b._available = true) (h2 : w.copyFail = false)
    (h3 : w.dirs.lookup b.base_dir = some d) :
    b.spawn_primary none false false w
      = (.ok (spawnedNode w), b, stepWorld w d) := by
  unfold NodeBackup.spawn_primary NodeBackup._prepare_dir mkdtemp copytree
    PostgresNode.new PostgresNode.append_conf spawnedNode stepWorld
  simp [h1, h2, h3, NodeBackup.set_available_true b h1]

/-- Invariant-carrying specification of `spawnManyNonDestroy`: starting
from an available backup whose data directory holds `d` in a well-formed
world, all `n` spawns succeed, the backup is returned unchanged, the
spawned base directories are exactly `w.nextTemp, …, w.nextTemp + n - 1`,
each holds a copy of `d`, and every directory below the initial counter is
untouched. -/
theorem spawnMany_spec (d : Nat) :
    ∀ (n : Nat) (b : NodeBackup) (w : World),
    b._available = true → w.copyFail = false →
    w.dirs.lookup b.base_dir = some d → b.base_dir < w.nextTemp →
    ∃ nodes w2, spawnManyNonDestroy n b w = some (nodes, b, w2) ∧
      nodes.map (fun nd => nd.base_dir)
        = (List.range n).map (fun i => w.nextTemp + i) ∧
      w2.nextTemp = w.nextTemp + n ∧
      (∀ nd ∈ nodes, w2.dirs.lookup nd.base_dir = some d) ∧
      (∀ k, k < w.nextTemp → w2.dirs.lookup k = w.dirs.lookup k) := by
  intro n
  induction n with
  | zero =>
    intro b w h1 h2 h3 h4
    exact ⟨[], w, rfl, rfl, by simp, by simp, fun k hk => rfl⟩
  | succ n ih =>
    intro b w h1 h2 h3 h4
    have hstep := spawn_primary_nondestroy_step b w d h1 h2 h3
    have h2b : (stepWorld w d).copyFail = false := by
      simp only [stepWorld]
      exact h2
    have h3b : (stepWorld w d).dirs.lookup b.base_dir = some d := by
      have hne : (b.base_dir == w.nextTemp) = false := by
        simp [Nat.ne_of_lt h4]
      simp only [stepWorld]
      simp [List.lookup, hne, h3]
    have h4b : b.base_dir < (stepWorld w d).nextTemp := by
      simp only [stepWorld]
      exact Nat.lt_succ_of_lt h4
    obtain ⟨nodes, w2, hrec, hmap, hnext, hcontents, hpres⟩ :=
      ih b (stepWorld w d) h1 h2b h3b h4b
    refine ⟨spawnedNode w :: nodes, w2, ?_, ?_, ?_, ?_, ?_⟩
    · simp only [spawnManyNonDestroy, hstep, hrec]
    · rw [List.map_cons, hmap, List.range_succ_eq_map, List.map_cons,
        List.map_map]
      have hfun : (fun i => (stepWorld w d).nextTemp + i)
          = ((fun i => w.nextTemp + i) ∘ Nat.succ) := by
        funext i
        simp only [stepWorld, Function.comp_apply]
        omega
      rw [hfun]
      simp [spawnedNode]
    · simp only [stepWorld] at hnext
      omega
    · intro nd hnd
      rcases List.mem_cons.mp hnd with hnd | hnd
      · have hlow := hpres nd.base_dir
          (by simp only [stepWorld]; rw [hnd]; simp [spawnedNode])
        rw [hlow, hnd]
        simp [spawnedNode, stepWorld, List.lookup]
      · exact hcontents nd hnd
    · intro k hk
      have hlow := hpres k
        (by simp only [stepWorld]; exact Nat.lt_succ_of_lt hk)
      rw [hlow]
      have hne : (k == w.nextTemp) = false := by
        simp [Nat.ne_of_lt hk]
      simp [stepWorld, List.lookup, hne]

/-- C2 (claim): on an available backup, `spawn_primary(destroy := false)`
deep-copies the data directory into a fresh private directory, keeps the
availability flag true, and may be repeated arbitrarily often: every one of
`n` successive spawns succeeds, returns the backup unchanged, and the
spawned nodes' base directories are pairwise distinct, distinct from the
backup's own directory, and each holds a copy of the backup's data, which
itself stays intact. -/
theorem C2_nondestroy_spawn_repeatable (n : Nat) (b : NodeBackup) (w : World)
    (d : Nat) (h1 : b._available = true) (h2 : w.copyFail = false)
    (h3 : w.dirs.lookup b.base_dir = some d) (h4 : b.base_dir < w.nextTemp) :
    ∃ nodes w2, spawnManyNonDestroy n b w = some (nodes, b, w2) ∧
      nodes.length = n ∧
      (nodes.map fun nd => nd.base_dir).Pairwise (fun x y => x ≠ y) ∧
      (∀ nd ∈ nodes, nd.base_dir ≠ b.base_dir ∧
        w2.dirs.lookup nd.base_dir = some d) ∧
      w2.dirs.lookup b.base_dir = some d := by
  obtain ⟨nodes, w2, hrun, hmap, hnext, hcontents, hpres⟩ :=
    spawnMany_spec d n b w h1 h2 h3 h4
  refine ⟨nodes, w2, hrun, ?_, ?_, ?_, ?_⟩
  · have hlen := congrArg List.length hmap
    simpa using hlen
  · rw [hmap]
    have hlt : ((List.range n).map fun i => w.nextTemp + i).Pairwise
        (fun x y => x < y) :=
      List.Pairwise.map (fun i => w.nextTemp + i)
        (fun a c hac => Nat.add_lt_add_left hac w.nextTemp)
        (List.pairwise_lt_range n)
    exact hlt.imp Nat.ne_of_lt
  · intro nd hnd
    have hmem : nd.base_dir ∈ (List.range n).map fun i => w.nextTemp + i := by
      rw [← hmap]
      exact List.mem_map_of_mem _ hnd
    obtain ⟨i, hi, hbd⟩ := List.mem_map.mp hmem
    exact ⟨by omega, hcontents nd hnd⟩
  · rw [hpres b.base_dir h4]
    exact h3

theorem C2_nondestroy_spawn_repeatable_witness :
    (sampleBackup._available = true ∧ sampleWorld.copyFail = false ∧
     sampleWorld.dirs.lookup sampleBackup.base_dir = some 7 ∧
     sampleBackup.base_dir < sampleWorld.nextTemp) ∧
    (∃ nodes w2,
      spawnManyNonDestroy 3 sampleBackup sampleWorld
        = some (nodes, sampleBackup, w2) ∧
      nodes.length = 3 ∧
      (nodes.map fun nd => nd.base_dir).Pairwise (fun x y => x ≠ y) ∧
      (∀ nd ∈ nodes, nd.base_dir ≠ sampleBackup.base_dir ∧
        w2.dirs.lookup nd.base_dir = some 7) ∧
      w2.dirs.lookup sampleBackup.base_dir = some 7) :=
  ⟨⟨by decide, by decide, by decide, by decide⟩,
   C2_nondestroy_spawn_repeatable 3 sampleBackup sampleWorld 7 (by decide)
     (by decide) (by decide) (by decide)⟩

/-- When every attempt returns a single-column row whose scalar differs
from the expected value, the poll loop consumes its whole remaining budget
and times out. -/
theorem pollLoop_timeout {α : Type} [DecidableEq α] (q : Nat → QueryResult α)
    (e : α) (hq : ∀ i, ∃ v, q i = .rows [[v]] ∧ v ≠ e) :
    ∀ fuel used,
      pollLoop q (some e) used fuel = .poll_timeout (used + fuel) := by
  intro fuel
  induction fuel with
  | zero =>
    intro used
    simp [pollLoop]
  | succ fuel ih =>
    intro used
    obtain ⟨v, hv, hne⟩ := hq used
    simp only [pollLoop, hv]
    rw [if_neg hne, ih (used + 1)]
    congr 1
    omega

/-- C9 (claim): the poll-until primitive raises a shape error after its
very first query — regardless of the attempt budget — when the query
returns zero rows or a row with other than exactly one column; and a query
that never matches the expected scalar times out after exactly the
`max_attempts = 3` attempts. -/
theorem C9_poll_shape_and_timeout {α : Type} [DecidableEq α]
    (q1 q2 q3 : Nat → QueryResult α) (e : α) (m : Nat)
    (r : List α) (rs : List (List α))
    (h1 : q1 0 = .rows [])
    (h2 : q2 0 = .rows (r :: rs)) (h2b : r.length ≠ 1)
    (h3 : ∀ i, ∃ v, q3 i = .rows [[v]] ∧ v ≠ e)
    (hm : 0 < m) :
    poll_query_until q1 (some e) m = .shape_error 1 ∧
    poll_query_until q2 (some e) m = .shape_error 1 ∧
    poll_query_until q3 (some e) 3 = .poll_timeout 3 := by
  obtain ⟨k, rfl⟩ : ∃ k, m = k + 1 := ⟨m - 1, by omega⟩
  refine ⟨?_, ?_, ?_⟩
  · simp [poll_query_until, pollLoop, h1]
  · rcases r with _ | ⟨v, _ | ⟨v2, rest⟩⟩
    · simp [poll_query_until, pollLoop, h2]
    · simp at h2b
    · simp [poll_query_until, pollLoop, h2]
  · have ht := pollLoop_timeout q3 e h3 3 0
    simpa [poll_query_until] using ht

theorem C9_poll_shape_and_timeout_witness :
    ((fun _ : Nat => QueryResult.rows ([] : List (List Int))) 0
        = QueryResult.rows [] ∧
     (fun _ : Nat => QueryResult.rows ([[]] : List (List Int))) 0
        = QueryResult.rows ([] :: []) ∧
     ([] : List Int).length ≠ 1 ∧
     (∀ i : Nat, ∃ v : Int,
        (fun _ : Nat => QueryResult.rows ([[3]] : List (List Int))) i
          = QueryResult.rows [[v]] ∧ v ≠ (1 : Int)) ∧
     0 < 5) ∧
    (poll_query_until (fun _ : Nat => QueryResult.rows ([] : List (List Int)))
        (some (1 : Int)) 5 = .shape_error 1 ∧
     poll_query_until (fun _ : Nat => QueryResult.rows ([[]] : List (List Int)))
        (some (1 : Int)) 5 = .shape_error 1 ∧
     poll_query_until (fun _ : Nat => QueryResult.rows ([[3]] : List (List Int)))
        (some (1 : Int)) 3 = .poll_timeout 3) :=
  ⟨⟨rfl, rfl, by decide, fun i => ⟨3, rfl, by decide⟩, by decide⟩,
   C9_poll_shape_and_timeout
     (fun _ : Nat => QueryResult.rows ([] : List (List Int)))
     (fun _ : Nat => QueryResult.rows ([[]] : List (List Int)))
     (fun _ : Nat => QueryResult.rows ([[3]] : List (List Int)))
     (1 : Int) 5 [] [] rfl rfl (by decide)
     (fun i => ⟨3, rfl, by decide⟩) (by decide)⟩
